import Mathlib

/-! The store configuration module `src/store.js`

The module is seventeen lines of wiring: it builds an object literal
`persistConfig`, calls five imported library functions in a fixed order and
exports two of its four top-level constants.

The embedding keeps the libraries abstract.  Every imported binding is a field
of `Imports`; an imported function is a state-passing function on an arbitrary
library world that returns either a value or a thrown error.  `evalModule`
evaluates the module body statement by statement in JavaScript evaluation
order (arguments before the call, left to right), threads the world, and
records every call it makes, with its arguments and its outcome, in a trace.
-/

set_option autoImplicit false

namespace StoreModule

/-! ## Values -/

/-- Carrier types of the values that the imported libraries exchange with the
module.  `World` is whatever state the libraries keep between calls, `Err` is
whatever they throw. -/
structure Sig where
  World : Type
  Reducer : Type
  Enhancer : Type
  Middleware : Type
  Store : Type
  Persistor : Type
  Storage : Type
  Err : Type

/-- Property values that occur in the object literal of `store.js`. -/
inductive Field (σ : Sig) where
  | str (s : String)
  | storage (st : σ.Storage)
  | keys (ks : List String)

/-- A JavaScript object literal: its properties in source order. -/
abbrev Obj (σ : Sig) := List (String × Field σ)

/-- Values bound to names or returned by calls in `store.js`. -/
inductive Value (σ : Sig) where
  | object (o : Obj σ)
  | reducer (r : σ.Reducer)
  | enhancer (e : σ.Enhancer)
  | store (s : σ.Store)
  | persistor (p : σ.Persistor)

/-- An imported function: it may read and change the library world and either
returns a value or throws. -/
abbrev LibCall (σ : Sig) (α : Type) := σ.World → Except σ.Err α × σ.World

/-- The eight bindings imported in lines 1-6 of `store.js`.
`applyMiddleware` and `composeWithDevTools` are variadic, so they take the
list of their arguments. -/
structure Imports (σ : Sig) where
  /-- Imported as `createStore` from `redux`, called as `createStore(reducer, enhancer)`. -/
  createStore : σ.Reducer → σ.Enhancer → LibCall σ σ.Store
  /-- Imported as `applyMiddleware` from `redux`. -/
  applyMiddleware : List σ.Middleware → LibCall σ σ.Enhancer
  /-- Imported as `persistStore` from `redux-persist`. -/
  persistStore : σ.Store → LibCall σ σ.Persistor
  /-- Imported as `persistReducer` from `redux-persist`. -/
  persistReducer : Obj σ → σ.Reducer → LibCall σ σ.Reducer
  /-- Imported as `composeWithDevTools` from `redux-devtools-extension`. -/
  composeWithDevTools : List σ.Enhancer → LibCall σ σ.Enhancer
  /-- Default export of `redux-thunk`. -/
  thunk : σ.Middleware
  /-- Default export of `./reducers`. -/
  reducer : σ.Reducer
  /-- Default export of `redux-persist/lib/storage`. -/
  storage : σ.Storage

/-! ## Trace of library calls -/

/-- A call of an imported function together with the arguments it received. -/
inductive Call (σ : Sig) where
  | persistReducer (config : Obj σ) (baseReducer : σ.Reducer)
  | applyMiddleware (middlewares : List σ.Middleware)
  | composeWithDevTools (funcs : List σ.Enhancer)
  | createStore (reducer : σ.Reducer) (enhancer : σ.Enhancer)
  | persistStore (store : σ.Store)

/-- Which imported function a call invokes. -/
inductive Kind where
  | persistReducer
  | applyMiddleware
  | composeWithDevTools
  | createStore
  | persistStore
  deriving DecidableEq, Repr

/-- The imported function invoked by a call. -/
def Call.kind {σ : Sig} : Call σ → Kind
  | .persistReducer _ _ => .persistReducer
  | .applyMiddleware _ => .applyMiddleware
  | .composeWithDevTools _ => .composeWithDevTools
  | .createStore _ _ => .createStore
  | .persistStore _ => .persistStore

/-- One entry of the trace: the call and what it returned or threw. -/
structure Event (σ : Sig) where
  call : Call σ
  ret : Except σ.Err (Value σ)

/-- The error thrown by the call of an event, if it threw. -/
def Event.thrown {σ : Sig} (ev : Event σ) : Option σ.Err :=
  match ev.ret with
  | .error x => some x
  | .ok _ => none

/-- Whether the call of an event threw. -/
def Event.failed {σ : Sig} (ev : Event σ) : Bool :=
  ev.thrown.isSome

/-- Whether an event is a call of the given imported function. -/
def Event.isKind {σ : Sig} (k : Kind) (ev : Event σ) : Bool :=
  decide (ev.call.kind = k)

/-! ## The module -/

/-- Lines 8-12: the object literal bound to `persistConfig`.  Its only free
name is the imported `storage`. -/
def persistConfig {σ : Sig} (storage : σ.Storage) : Obj σ :=
  [("key", .str "reducer"),
   ("storage", .storage storage),
   ("whitelist", .keys ["reducer"])]

/-- The top-level `const` bindings of the module after lines 8-16 have run. -/
abbrev Scope (σ : Sig) := List (String × Value σ)

/-- What evaluating the module leaves behind: the module scope or the error
that aborted evaluation, the library world, and the calls made. -/
structure Outcome (σ : Sig) where
  result : Except σ.Err (Scope σ)
  world : σ.World
  trace : List (Event σ)

/-- Lines 8-16 of `store.js`.  The module has no `try`, so the first call that
throws ends evaluation with that error. -/
def evalModule {σ : Sig} (I : Imports σ) (w0 : σ.World) : Outcome σ :=
  -- const persistConfig = { key: 'reducer', storage: storage, whitelist: ['reducer'] };
  let config := persistConfig I.storage
  -- const presistedReducer = persistReducer(persistConfig, reducer);
  match I.persistReducer config I.reducer w0 with
  | (.error x, w1) =>
    ⟨.error x, w1, [⟨.persistReducer config I.reducer, .error x⟩]⟩
  | (.ok presistedReducer, w1) =>
    let t1 : List (Event σ) :=
      [⟨.persistReducer config I.reducer, .ok (.reducer presistedReducer)⟩]
    -- const store = createStore(presistedReducer, composeWithDevTools(applyMiddleware(thunk)));
    match I.applyMiddleware [I.thunk] w1 with
    | (.error x, w2) =>
      ⟨.error x, w2, t1 ++ [⟨.applyMiddleware [I.thunk], .error x⟩]⟩
    | (.ok e1, w2) =>
      let t2 := t1 ++ [⟨.applyMiddleware [I.thunk], .ok (.enhancer e1)⟩]
      match I.composeWithDevTools [e1] w2 with
      | (.error x, w3) =>
        ⟨.error x, w3, t2 ++ [⟨.composeWithDevTools [e1], .error x⟩]⟩
      | (.ok e2, w3) =>
        let t3 := t2 ++ [⟨.composeWithDevTools [e1], .ok (.enhancer e2)⟩]
        match I.createStore presistedReducer e2 w3 with
        | (.error x, w4) =>
          ⟨.error x, w4, t3 ++ [⟨.createStore presistedReducer e2, .error x⟩]⟩
        | (.ok store, w4) =>
          let t4 := t3 ++ [⟨.createStore presistedReducer e2, .ok (.store store)⟩]
          -- const persistor = persistStore(store);
          match I.persistStore store w4 with
          | (.error x, w5) =>
            ⟨.error x, w5, t4 ++ [⟨.persistStore store, .error x⟩]⟩
          | (.ok persistor, w5) =>
            ⟨.ok [("persistConfig", .object config),
                  ("presistedReducer", .reducer presistedReducer),
                  ("store", .store store),
                  ("persistor", .persistor persistor)],
             w5,
             t4 ++ [⟨.persistStore store, .ok (.persistor persistor)⟩]⟩

/-- Line 17, `export { persistor, store }`: the exported names, in source order. -/
def exportList : List String := ["persistor", "store"]

/-- Line 17: the module namespace object, each exported name with the value it
is bound to in the module scope. -/
def moduleExports {σ : Sig} (scope : Scope σ) : List (String × Value σ) :=
  exportList.filterMap fun name => (scope.lookup name).map fun v => (name, v)

/-- The configuration object handed to the first `persistReducer` call of a trace. -/
def configPassed {σ : Sig} : List (Event σ) → Option (Obj σ)
  | [] => none
  | ⟨.persistReducer config _, _⟩ :: _ => some config
  | _ :: rest => configPassed rest

/-! ## Persistence policy -/

/-- The `whitelist` property of a configuration object, when it has one. -/
def whitelistOf {σ : Sig} (config : Obj σ) : Option (List String) :=
  match config.lookup "whitelist" with
  | some (.keys ks) => some ks
  | _ => none

/-- The `blacklist` property of a configuration object, when it has one. -/
def blacklistOf {σ : Sig} (config : Obj σ) : Option (List String) :=
  match config.lookup "blacklist" with
  | some (.keys ks) => some ks
  | _ => none

/-- Modelled from the spec: the key filter of the persistence library, a
dependency that is not part of the repository sources.  The spec describes its
contract as an inclusion or exclusion list of sub-trees to persist: a top-level
key passes when it is named in the inclusion list (if the configuration has
one) and is not named in the exclusion list (if the configuration has one). -/
def passesFilter {σ : Sig} (config : Obj σ) (key : String) : Bool :=
  (match whitelistOf config with
   | some wl => wl.contains key
   | none => true) &&
  (match blacklistOf config with
   | some bl => !bl.contains key
   | none => true)

/-- Modelled from the spec: the persisted slice of a state tree, "whichever key
is named in an inclusion list".  The persistence library that computes it is a
dependency, not part of the repository sources.  A state tree is given by its
top-level keys with their sub-trees. -/
def persistedSlice {σ : Sig} {V : Type} (config : Obj σ) (state : List (String × V)) :
    List (String × V) :=
  state.filter fun kv => passesFilter config kv.1

/-! ## A concrete instance, used to exercise the statements -/

/-- Every carrier is a type of numbers or strings. -/
@[reducible]
def demoSig : Sig where
  World := Nat
  Reducer := Nat
  Enhancer := Nat
  Middleware := Nat
  Store := Nat
  Persistor := Nat
  Storage := String
  Err := String

/-- Libraries that never throw; every call advances the world by one. -/
def demoImports : Imports demoSig where
  createStore := fun r e w => (.ok (r + e + 1000), w + 1)
  applyMiddleware := fun ms w => (.ok (ms.length + 10), w + 1)
  persistStore := fun s w => (.ok (s + 5000), w + 1)
  persistReducer := fun _ r w => (.ok (r + 100), w + 1)
  composeWithDevTools := fun es w => (.ok (es.sum + 20), w + 1)
  thunk := 7
  reducer := 1
  storage := "localStorage"

/-- Libraries whose `createStore` throws. -/
def failingImports : Imports demoSig where
  createStore := fun _ _ w => (.error "createStore: bad reducer", w + 1)
  applyMiddleware := fun ms w => (.ok (ms.length + 10), w + 1)
  persistStore := fun s w => (.ok (s + 5000), w + 1)
  persistReducer := fun _ r w => (.ok (r + 100), w + 1)
  composeWithDevTools := fun es w => (.ok (es.sum + 20), w + 1)
  thunk := 7
  reducer := 1
  storage := "localStorage"

/-- Libraries that never throw and whose return values depend on the world in
which they are called, so that two calls of the same function give different
values. -/
def countingImports : Imports demoSig where
  createStore := fun r e w => (.ok (r + e + 1000 * w), w + 1)
  applyMiddleware := fun ms w => (.ok (ms.length + 10 * w), w + 1)
  persistStore := fun s w => (.ok (s + 100000 * w), w + 1)
  persistReducer := fun _ r w => (.ok (r + 100 + w), w + 1)
  composeWithDevTools := fun es w => (.ok (es.sum + 20 * w), w + 1)
  thunk := 7
  reducer := 1
  storage := "localStorage"

/-- Libraries whose `persistReducer` inspects its configuration: it throws
unless the `key` property is `reducer` and the `storage` property is the
storage engine `localStorage`. -/
def strictImports : Imports demoSig where
  createStore := fun r e w => (.ok (r + e + 1000), w + 1)
  applyMiddleware := fun ms w => (.ok (ms.length + 10), w + 1)
  persistStore := fun s w => (.ok (s + 5000), w + 1)
  persistReducer := fun config r w =>
    match config.lookup "key", config.lookup "storage" with
    | some (.str k), some (.storage st) =>
      if k = "reducer" ∧ st = "localStorage" then (.ok (r + 100), w + 1)
      else (.error "persistReducer: bad config", w + 1)
    | _, _ => (.error "persistReducer: bad config", w + 1)
  composeWithDevTools := fun es w => (.ok (es.sum + 20), w + 1)
  thunk := 7
  reducer := 1
  storage := "localStorage"

/-- The same imports with another function bound to `persistReducer`. -/
def Imports.withPersistReducer {σ : Sig} (I : Imports σ)
    (f : Obj σ → σ.Reducer → LibCall σ σ.Reducer) : Imports σ where
  createStore := I.createStore
  applyMiddleware := I.applyMiddleware
  persistStore := I.persistStore
  persistReducer := f
  composeWithDevTools := I.composeWithDevTools
  thunk := I.thunk
  reducer := I.reducer
  storage := I.storage

/-! ## Runs -/

/-- The trace of a run in which all five calls returned. -/
def fullTrace {σ : Sig} (I : Imports σ) (pr : σ.Reducer) (e1 e2 : σ.Enhancer)
    (s : σ.Store) (p : σ.Persistor) : List (Event σ) :=
  [⟨.persistReducer (persistConfig I.storage) I.reducer, .ok (.reducer pr)⟩,
   ⟨.applyMiddleware [I.thunk], .ok (.enhancer e1)⟩,
   ⟨.composeWithDevTools [e1], .ok (.enhancer e2)⟩,
   ⟨.createStore pr e2, .ok (.store s)⟩,
   ⟨.persistStore s, .ok (.persistor p)⟩]

/-- The module scope of a run in which all five calls returned. -/
def fullScope {σ : Sig} (I : Imports σ) (pr : σ.Reducer) (s : σ.Store)
    (p : σ.Persistor) : Scope σ :=
  [("persistConfig", .object (persistConfig I.storage)),
   ("presistedReducer", .reducer pr),
   ("store", .store s),
   ("persistor", .persistor p)]

/-- The five calls of a successful run, each made in the world the previous
one left. -/
def Chain {σ : Sig} (I : Imports σ) (w0 : σ.World) (pr : σ.Reducer) (e1 e2 : σ.Enhancer)
    (s : σ.Store) (p : σ.Persistor) (w5 : σ.World) : Prop :=
  ∃ w1 w2 w3 w4,
    I.persistReducer (persistConfig I.storage) I.reducer w0 = (.ok pr, w1) ∧
    I.applyMiddleware [I.thunk] w1 = (.ok e1, w2) ∧
    I.composeWithDevTools [e1] w2 = (.ok e2, w3) ∧
    I.createStore pr e2 w3 = (.ok s, w4) ∧
    I.persistStore s w4 = (.ok p, w5)

/-- The six ways a run of the module can go: one of the five calls throws, or
all of them return.  Each case gives the outcome of the run. -/
inductive Run {σ : Sig} (I : Imports σ) (w0 : σ.World) : Outcome σ → Prop where
  | persistReducerThrows (x : σ.Err) (w1 : σ.World)
      (h1 : I.persistReducer (persistConfig I.storage) I.reducer w0 = (.error x, w1)) :
      Run I w0 ⟨.error x, w1,
        [⟨.persistReducer (persistConfig I.storage) I.reducer, .error x⟩]⟩
  | applyMiddlewareThrows (pr : σ.Reducer) (w1 : σ.World) (x : σ.Err) (w2 : σ.World)
      (h1 : I.persistReducer (persistConfig I.storage) I.reducer w0 = (.ok pr, w1))
      (h2 : I.applyMiddleware [I.thunk] w1 = (.error x, w2)) :
      Run I w0 ⟨.error x, w2,
        [⟨.persistReducer (persistConfig I.storage) I.reducer, .ok (.reducer pr)⟩,
         ⟨.applyMiddleware [I.thunk], .error x⟩]⟩
  | composeWithDevToolsThrows (pr : σ.Reducer) (w1 : σ.World) (e1 : σ.Enhancer)
      (w2 : σ.World) (x : σ.Err) (w3 : σ.World)
      (h1 : I.persistReducer (persistConfig I.storage) I.reducer w0 = (.ok pr, w1))
      (h2 : I.applyMiddleware [I.thunk] w1 = (.ok e1, w2))
      (h3 : I.composeWithDevTools [e1] w2 = (.error x, w3)) :
      Run I w0 ⟨.error x, w3,
        [⟨.persistReducer (persistConfig I.storage) I.reducer, .ok (.reducer pr)⟩,
         ⟨.applyMiddleware [I.thunk], .ok (.enhancer e1)⟩,
         ⟨.composeWithDevTools [e1], .error x⟩]⟩
  | createStoreThrows (pr : σ.Reducer) (w1 : σ.World) (e1 : σ.Enhancer) (w2 : σ.World)
      (e2 : σ.Enhancer) (w3 : σ.World) (x : σ.Err) (w4 : σ.World)
      (h1 : I.persistReducer (persistConfig I.storage) I.reducer w0 = (.ok pr, w1))
      (h2 : I.applyMiddleware [I.thunk] w1 = (.ok e1, w2))
      (h3 : I.composeWithDevTools [e1] w2 = (.ok e2, w3))
      (h4 : I.createStore pr e2 w3 = (.error x, w4)) :
      Run I w0 ⟨.error x, w4,
        [⟨.persistReducer (persistConfig I.storage) I.reducer, .ok (.reducer pr)⟩,
         ⟨.applyMiddleware [I.thunk], .ok (.enhancer e1)⟩,
         ⟨.composeWithDevTools [e1], .ok (.enhancer e2)⟩,
         ⟨.createStore pr e2, .error x⟩]⟩
  | persistStoreThrows (pr : σ.Reducer) (w1 : σ.World) (e1 : σ.Enhancer) (w2 : σ.World)
      (e2 : σ.Enhancer) (w3 : σ.World) (s : σ.Store) (w4 : σ.World) (x : σ.Err)
      (w5 : σ.World)
      (h1 : I.persistReducer (persistConfig I.storage) I.reducer w0 = (.ok pr, w1))
      (h2 : I.applyMiddleware [I.thunk] w1 = (.ok e1, w2))
      (h3 : I.composeWithDevTools [e1] w2 = (.ok e2, w3))
      (h4 : I.createStore pr e2 w3 = (.ok s, w4))
      (h5 : I.persistStore s w4 = (.error x, w5)) :
      Run I w0 ⟨.error x, w5,
        [⟨.persistReducer (persistConfig I.storage) I.reducer, .ok (.reducer pr)⟩,
         ⟨.applyMiddleware [I.thunk], .ok (.enhancer e1)⟩,
         ⟨.composeWithDevTools [e1], .ok (.enhancer e2)⟩,
         ⟨.createStore pr e2, .ok (.store s)⟩,
         ⟨.persistStore s, .error x⟩]⟩
  | completes (pr : σ.Reducer) (e1 e2 : σ.Enhancer) (s : σ.Store) (p : σ.Persistor)
      (w5 : σ.World) (h : Chain I w0 pr e1 e2 s p w5) :
      Run I w0 ⟨.ok (fullScope I pr s p), w5, fullTrace I pr e1 e2 s p⟩

/-! ## Structure of a run -/

/-- A chain of five returning calls gives the completed run. -/
theorem evalModule_of_chain {σ : Sig} (I : Imports σ) (w0 : σ.World) (pr : σ.Reducer)
    (e1 e2 : σ.Enhancer) (s : σ.Store) (p : σ.Persistor) (w5 : σ.World)
    (h : Chain I w0 pr e1 e2 s p w5) :
    evalModule I w0 = ⟨.ok (fullScope I pr s p), w5, fullTrace I pr e1 e2 s p⟩ := by
  obtain ⟨w1, w2, w3, w4, h1, h2, h3, h4, h5⟩ := h
  simp [evalModule, h1, h2, h3, h4, h5, fullScope, fullTrace]

/-- A run that ends with a module scope went through a chain of five returning
calls. -/
theorem chain_of_evalModule_ok {σ : Sig} (I : Imports σ) (w0 : σ.World) (m : Scope σ)
    (h : (evalModule I w0).result = .ok m) :
    ∃ pr e1 e2 s p w5, Chain I w0 pr e1 e2 s p w5 := by
  unfold evalModule at h
  rcases h1 : I.persistReducer (persistConfig I.storage) I.reducer w0 with ⟨_ | pr, w1⟩
  · simp [h1] at h
  rcases h2 : I.applyMiddleware [I.thunk] w1 with ⟨_ | e1, w2⟩
  · simp [h1, h2] at h
  rcases h3 : I.composeWithDevTools [e1] w2 with ⟨_ | e2, w3⟩
  · simp [h1, h2, h3] at h
  rcases h4 : I.createStore pr e2 w3 with ⟨_ | s, w4⟩
  · simp [h1, h2, h3, h4] at h
  rcases h5 : I.persistStore s w4 with ⟨_ | p, w5⟩
  · simp [h1, h2, h3, h4, h5] at h
  exact ⟨pr, e1, e2, s, p, w5, w1, w2, w3, w4, h1, h2, h3, h4, h5⟩

/-- A run that ends with a module scope is the completed run of its chain. -/
theorem evalModule_ok_shape {σ : Sig} (I : Imports σ) (w0 : σ.World) (m : Scope σ)
    (h : (evalModule I w0).result = .ok m) :
    ∃ pr e1 e2 s p w5, Chain I w0 pr e1 e2 s p w5 ∧ m = fullScope I pr s p ∧
      evalModule I w0 = ⟨.ok (fullScope I pr s p), w5, fullTrace I pr e1 e2 s p⟩ := by
  obtain ⟨pr, e1, e2, s, p, w5, hc⟩ := chain_of_evalModule_ok I w0 m h
  have he := evalModule_of_chain I w0 pr e1 e2 s p w5 hc
  refine ⟨pr, e1, e2, s, p, w5, hc, ?_, he⟩
  rw [he] at h
  simpa using h.symm

/-- The exports of the scope of a completed run. -/
theorem moduleExports_fullScope {σ : Sig} (I : Imports σ) (pr : σ.Reducer) (s : σ.Store)
    (p : σ.Persistor) :
    moduleExports (fullScope I pr s p) = [("persistor", .persistor p), ("store", .store s)] := by
  simp [moduleExports, exportList, fullScope, List.lookup]

/-- Every evaluation is one of the six runs. -/
theorem evalModule_run {σ : Sig} (I : Imports σ) (w0 : σ.World) :
    Run I w0 (evalModule I w0) := by
  rcases h1 : I.persistReducer (persistConfig I.storage) I.reducer w0 with ⟨x | pr, w1⟩
  · unfold evalModule; simp only [h1]
    exact .persistReducerThrows x w1 h1
  rcases h2 : I.applyMiddleware [I.thunk] w1 with ⟨x | e1, w2⟩
  · unfold evalModule; simp only [h1, h2]
    exact .applyMiddlewareThrows pr w1 x w2 h1 h2
  rcases h3 : I.composeWithDevTools [e1] w2 with ⟨x | e2, w3⟩
  · unfold evalModule; simp only [h1, h2, h3]
    exact .composeWithDevToolsThrows pr w1 e1 w2 x w3 h1 h2 h3
  rcases h4 : I.createStore pr e2 w3 with ⟨x | s, w4⟩
  · unfold evalModule; simp only [h1, h2, h3, h4]
    exact .createStoreThrows pr w1 e1 w2 e2 w3 x w4 h1 h2 h3 h4
  rcases h5 : I.persistStore s w4 with ⟨x | p, w5⟩
  · unfold evalModule; simp only [h1, h2, h3, h4, h5]
    exact .persistStoreThrows pr w1 e1 w2 e2 w3 s w4 x w5 h1 h2 h3 h4 h5
  · rw [evalModule_of_chain I w0 pr e1 e2 s p w5 ⟨w1, w2, w3, w4, h1, h2, h3, h4, h5⟩]
    exact .completes pr e1 e2 s p w5 ⟨w1, w2, w3, w4, h1, h2, h3, h4, h5⟩

/-- Every run starts with the `persistReducer` call on `persistConfig`. -/
theorem trace_head_call {σ : Sig} (I : Imports σ) (w0 : σ.World) :
    ∃ ret rest, (evalModule I w0).trace =
      ⟨.persistReducer (persistConfig I.storage) I.reducer, ret⟩ :: rest := by
  have h := evalModule_run I w0
  generalize evalModule I w0 = out at h ⊢
  cases h <;> exact ⟨_, _, rfl⟩

/-- When only the last call of a trace may have thrown, nothing follows a call
that threw. -/
theorem nothing_after_failed_of_dropLast {σ : Sig} (l : List (Event σ))
    (h : ∀ ev ∈ l.dropLast, ev.failed = false) (pre : List (Event σ)) (ev : Event σ)
    (post : List (Event σ)) (hl : l = pre ++ ev :: post) (hf : ev.failed = true) :
    post = [] := by
  by_contra hne
  have hmem : ev ∈ l.dropLast := by
    subst hl
    rw [List.dropLast_append_of_ne_nil _ (by simp), List.dropLast_cons_of_ne_nil hne]
    simp
  rw [h ev hmem] at hf
  exact Bool.false_ne_true hf

/-- On the configuration of `store.js` the key filter lets exactly the key
`reducer` pass. -/
theorem passesFilter_persistConfig {σ : Sig} (st : σ.Storage) (k : String) :
    passesFilter (persistConfig st) k = decide (k = "reducer") := by
  simp [passesFilter, whitelistOf, blacklistOf, persistConfig, List.lookup]

/-- When `persistReducer` throws, the run ends there with its error. -/
theorem evalModule_of_persistReducer_error {σ : Sig} (I : Imports σ) (w0 : σ.World)
    (x : σ.Err) (w1 : σ.World)
    (h1 : I.persistReducer (persistConfig I.storage) I.reducer w0 = (.error x, w1)) :
    evalModule I w0 = ⟨.error x, w1,
      [⟨.persistReducer (persistConfig I.storage) I.reducer, .error x⟩]⟩ := by
  simp [evalModule, h1]

/-- When `createStore` throws, the run ends there with its error. -/
theorem evalModule_of_createStore_error {σ : Sig} (I : Imports σ) (w0 : σ.World)
    (pr : σ.Reducer) (w1 : σ.World) (e1 : σ.Enhancer) (w2 : σ.World) (e2 : σ.Enhancer)
    (w3 : σ.World) (x : σ.Err) (w4 : σ.World)
    (h1 : I.persistReducer (persistConfig I.storage) I.reducer w0 = (.ok pr, w1))
    (h2 : I.applyMiddleware [I.thunk] w1 = (.ok e1, w2))
    (h3 : I.composeWithDevTools [e1] w2 = (.ok e2, w3))
    (h4 : I.createStore pr e2 w3 = (.error x, w4)) :
    evalModule I w0 = ⟨.error x, w4,
      [⟨.persistReducer (persistConfig I.storage) I.reducer, .ok (.reducer pr)⟩,
       ⟨.applyMiddleware [I.thunk], .ok (.enhancer e1)⟩,
       ⟨.composeWithDevTools [e1], .ok (.enhancer e2)⟩,
       ⟨.createStore pr e2, .error x⟩]⟩ := by
  simp [evalModule, h1, h2, h3, h4]

/-- When `persistStore` throws, the run ends there with its error. -/
theorem evalModule_of_persistStore_error {σ : Sig} (I : Imports σ) (w0 : σ.World)
    (pr : σ.Reducer) (w1 : σ.World) (e1 : σ.Enhancer) (w2 : σ.World) (e2 : σ.Enhancer)
    (w3 : σ.World) (s : σ.Store) (w4 : σ.World) (x : σ.Err) (w5 : σ.World)
    (h1 : I.persistReducer (persistConfig I.storage) I.reducer w0 = (.ok pr, w1))
    (h2 : I.applyMiddleware [I.thunk] w1 = (.ok e1, w2))
    (h3 : I.composeWithDevTools [e1] w2 = (.ok e2, w3))
    (h4 : I.createStore pr e2 w3 = (.ok s, w4))
    (h5 : I.persistStore s w4 = (.error x, w5)) :
    evalModule I w0 = ⟨.error x, w5,
      [⟨.persistReducer (persistConfig I.storage) I.reducer, .ok (.reducer pr)⟩,
       ⟨.applyMiddleware [I.thunk], .ok (.enhancer e1)⟩,
       ⟨.composeWithDevTools [e1], .ok (.enhancer e2)⟩,
       ⟨.createStore pr e2, .ok (.store s)⟩,
       ⟨.persistStore s, .error x⟩]⟩ := by
  simp [evalModule, h1, h2, h3, h4, h5]

/-- The run reads `persistReducer` only at the configuration `persistConfig`. -/
theorem evalModule_withPersistReducer {σ : Sig} (I : Imports σ) (w0 : σ.World)
    (f : Obj σ → σ.Reducer → LibCall σ σ.Reducer)
    (hf : ∀ r w, f (persistConfig I.storage) r w
      = I.persistReducer (persistConfig I.storage) r w) :
    evalModule (I.withPersistReducer f) w0 = evalModule I w0 := by
  simp [evalModule, Imports.withPersistReducer, hf]

/-! ## The claims -/

/-- C1: whenever evaluation of the module completes, its exports are exactly
the two names `persistor` and `store`.  The exported `store` is the value that
`createStore` returned, called once on the wrapped reducer and the composed
enhancer in the world the earlier calls left; the exported `persistor` is the
value that `persistStore` returned when applied to that same store in the world
`createStore` left; the world after the run is the one this `persistStore`
call left, so no other store was created and `persistStore` was applied to
nothing else.  `persistConfig` and `presistedReducer` are bound in the module
scope but are not exported. -/
theorem exports_exactly_store_and_persistor {σ : Sig} (I : Imports σ) (w0 : σ.World)
    (m : Scope σ) (h : (evalModule I w0).result = .ok m) :
    (moduleExports m).map Prod.fst = ["persistor", "store"] ∧
    (∃ pr e s p,
      moduleExports m = [("persistor", .persistor p), ("store", .store s)] ∧
      (⟨.createStore pr e, .ok (.store s)⟩ : Event σ) ∈ (evalModule I w0).trace ∧
      (⟨.persistStore s, .ok (.persistor p)⟩ : Event σ) ∈ (evalModule I w0).trace ∧
      (∀ s' ret, (⟨.persistStore s', ret⟩ : Event σ) ∈ (evalModule I w0).trace → s' = s) ∧
      m.lookup "presistedReducer" = some (.reducer pr) ∧
      (∃ e1 w1 w2 w3 w4 w5,
        I.persistReducer (persistConfig I.storage) I.reducer w0 = (.ok pr, w1) ∧
        I.applyMiddleware [I.thunk] w1 = (.ok e1, w2) ∧
        I.composeWithDevTools [e1] w2 = (.ok e, w3) ∧
        I.createStore pr e w3 = (.ok s, w4) ∧
        I.persistStore s w4 = (.ok p, w5) ∧
        (evalModule I w0).world = w5 ∧
        m = [("persistConfig", .object (persistConfig I.storage)),
             ("presistedReducer", .reducer pr),
             ("store", .store s),
             ("persistor", .persistor p)])) ∧
    m.lookup "persistConfig" = some (.object (persistConfig I.storage)) ∧
    (moduleExports m).lookup "persistConfig" = none ∧
    (moduleExports m).lookup "presistedReducer" = none := by
  obtain ⟨pr, e1, e2, s, p, w5, hc, hm, he⟩ := evalModule_ok_shape I w0 m h
  obtain ⟨w1, w2, w3, w4, h1, h2, h3, h4, h5⟩ := hc
  subst hm
  rw [he, moduleExports_fullScope]
  refine ⟨by simp, ⟨pr, e2, s, p, rfl, by simp [fullTrace], by simp [fullTrace], ?_, ?_,
    ⟨e1, w1, w2, w3, w4, w5, h1, h2, h3, h4, h5, rfl, rfl⟩⟩,
    ?_, by simp [List.lookup], by simp [List.lookup]⟩
  · intro s' ret hmem
    simp [fullTrace] at hmem
    exact hmem.1
  · simp [fullScope, List.lookup]
  · simp [fullScope, List.lookup]

/-- Witness for C1 on libraries whose return values depend on the world: the
exported store is the one created in world 3 and the persistor is built from
it in world 4. -/
theorem exports_exactly_store_and_persistor_witness :
    (evalModule countingImports 0).result
      = .ok (fullScope countingImports 101 3152 403152) ∧
    (moduleExports (fullScope countingImports 101 3152 403152)).map Prod.fst
      = ["persistor", "store"] ∧
    (∃ pr e s p,
      moduleExports (fullScope countingImports 101 3152 403152)
        = [("persistor", .persistor p), ("store", .store s)] ∧
      (⟨.createStore pr e, .ok (.store s)⟩ : Event demoSig)
        ∈ (evalModule countingImports 0).trace ∧
      (⟨.persistStore s, .ok (.persistor p)⟩ : Event demoSig)
        ∈ (evalModule countingImports 0).trace ∧
      (∀ s' ret, (⟨.persistStore s', ret⟩ : Event demoSig)
        ∈ (evalModule countingImports 0).trace → s' = s) ∧
      (fullScope countingImports 101 3152 403152).lookup "presistedReducer"
        = some (.reducer pr) ∧
      (∃ e1 w1 w2 w3 w4 w5,
        countingImports.persistReducer (persistConfig countingImports.storage)
          countingImports.reducer 0 = (.ok pr, w1) ∧
        countingImports.applyMiddleware [countingImports.thunk] w1 = (.ok e1, w2) ∧
        countingImports.composeWithDevTools [e1] w2 = (.ok e, w3) ∧
        countingImports.createStore pr e w3 = (.ok s, w4) ∧
        countingImports.persistStore s w4 = (.ok p, w5) ∧
        (evalModule countingImports 0).world = w5 ∧
        fullScope countingImports 101 3152 403152 =
          [("persistConfig", .object (persistConfig countingImports.storage)),
           ("presistedReducer", .reducer pr),
           ("store", .store s),
           ("persistor", .persistor p)])) ∧
    (fullScope countingImports 101 3152 403152).lookup "persistConfig"
      = some (.object (persistConfig countingImports.storage)) ∧
    (moduleExports (fullScope countingImports 101 3152 403152)).lookup "persistConfig"
      = none ∧
    (moduleExports (fullScope countingImports 101 3152 403152)).lookup "presistedReducer"
      = none :=
  ⟨rfl, exports_exactly_store_and_persistor countingImports 0
    (fullScope countingImports 101 3152 403152) rfl⟩

/-- C2: for every base reducer (the `reducer` field of the imports), whenever
evaluation completes the store is
`createStore(persistReducer(persistConfig, reducer), composeWithDevTools(applyMiddleware(thunk)))`:
the five calls are made in this order, `createStore` receives the reducer that
`persistReducer` returned, `applyMiddleware` receives the one-element chain
`[thunk]`, and `persistStore` receives the store that `createStore` returned. -/
theorem store_is_linear_composition {σ : Sig} (I : Imports σ) (w0 : σ.World)
    (m : Scope σ) (h : (evalModule I w0).result = .ok m) :
    ∃ pr e1 e2 s p w1 w2 w3 w4 w5,
      I.persistReducer (persistConfig I.storage) I.reducer w0 = (.ok pr, w1) ∧
      I.applyMiddleware [I.thunk] w1 = (.ok e1, w2) ∧
      I.composeWithDevTools [e1] w2 = (.ok e2, w3) ∧
      I.createStore pr e2 w3 = (.ok s, w4) ∧
      I.persistStore s w4 = (.ok p, w5) ∧
      m.lookup "store" = some (.store s) ∧
      m.lookup "persistor" = some (.persistor p) ∧
      (evalModule I w0).world = w5 ∧
      (evalModule I w0).trace =
        [⟨.persistReducer (persistConfig I.storage) I.reducer, .ok (.reducer pr)⟩,
         ⟨.applyMiddleware [I.thunk], .ok (.enhancer e1)⟩,
         ⟨.composeWithDevTools [e1], .ok (.enhancer e2)⟩,
         ⟨.createStore pr e2, .ok (.store s)⟩,
         ⟨.persistStore s, .ok (.persistor p)⟩] := by
  obtain ⟨pr, e1, e2, s, p, w5, hc, hm, he⟩ := evalModule_ok_shape I w0 m h
  obtain ⟨w1, w2, w3, w4, h1, h2, h3, h4, h5⟩ := hc
  subst hm
  refine ⟨pr, e1, e2, s, p, w1, w2, w3, w4, w5, h1, h2, h3, h4, h5, ?_, ?_, ?_, ?_⟩
  · simp [fullScope, List.lookup]
  · simp [fullScope, List.lookup]
  · rw [he]
  · rw [he]; rfl

/-- Witness for C2 on libraries that never throw. -/
theorem store_is_linear_composition_witness :
    (evalModule demoImports 0).result = .ok (fullScope demoImports 101 1132 6132) ∧
    ∃ pr e1 e2 s p w1 w2 w3 w4 w5,
      demoImports.persistReducer (persistConfig demoImports.storage) demoImports.reducer 0
        = (.ok pr, w1) ∧
      demoImports.applyMiddleware [demoImports.thunk] w1 = (.ok e1, w2) ∧
      demoImports.composeWithDevTools [e1] w2 = (.ok e2, w3) ∧
      demoImports.createStore pr e2 w3 = (.ok s, w4) ∧
      demoImports.persistStore s w4 = (.ok p, w5) ∧
      (fullScope demoImports 101 1132 6132).lookup "store" = some (.store s) ∧
      (fullScope demoImports 101 1132 6132).lookup "persistor" = some (.persistor p) ∧
      (evalModule demoImports 0).world = w5 ∧
      (evalModule demoImports 0).trace =
        [⟨.persistReducer (persistConfig demoImports.storage) demoImports.reducer,
            .ok (.reducer pr)⟩,
         ⟨.applyMiddleware [demoImports.thunk], .ok (.enhancer e1)⟩,
         ⟨.composeWithDevTools [e1], .ok (.enhancer e2)⟩,
         ⟨.createStore pr e2, .ok (.store s)⟩,
         ⟨.persistStore s, .ok (.persistor p)⟩] :=
  ⟨rfl, store_is_linear_composition demoImports 0 (fullScope demoImports 101 1132 6132) rfl⟩

/-- C4: the configuration object handed to `persistReducer` is `persistConfig`;
its `storage` property is the default export of `redux-persist/lib/storage`,
its `key` property is the string `reducer`.  This holds in every run, whatever
the libraries do, and two runs whose imports agree on `storage` pass the same
configuration, whatever their reducers, their other imports and their worlds.
The call is really made, on `persistConfig`, the base reducer and the initial
world: if it throws, the run ends with its error in the world it left; if the
run completes, the reducer bound to `presistedReducer` is what it returned;
and the run does not change when `persistReducer` is replaced by a function
that agrees with it on `persistConfig`. -/
theorem persistReducer_config_is_fixed {σ : Sig} (I : Imports σ) (w0 : σ.World) :
    configPassed (evalModule I w0).trace = some (persistConfig I.storage) ∧
    (persistConfig I.storage).lookup "key" = some (.str "reducer") ∧
    (persistConfig I.storage).lookup "storage" = some (.storage I.storage) ∧
    (∀ (J : Imports σ) (v0 : σ.World), J.storage = I.storage →
      configPassed (evalModule J v0).trace = configPassed (evalModule I w0).trace) ∧
    (∀ x w1, I.persistReducer (persistConfig I.storage) I.reducer w0 = (.error x, w1) →
      evalModule I w0 = ⟨.error x, w1,
        [⟨.persistReducer (persistConfig I.storage) I.reducer, .error x⟩]⟩) ∧
    (∀ pr w1, I.persistReducer (persistConfig I.storage) I.reducer w0 = (.ok pr, w1) →
      ∃ rest, (evalModule I w0).trace =
        ⟨.persistReducer (persistConfig I.storage) I.reducer, .ok (.reducer pr)⟩ :: rest) ∧
    (∀ m, (evalModule I w0).result = .ok m →
      ∃ pr w1, I.persistReducer (persistConfig I.storage) I.reducer w0 = (.ok pr, w1) ∧
        m.lookup "presistedReducer" = some (.reducer pr) ∧
        m.lookup "persistConfig" = some (.object (persistConfig I.storage))) ∧
    (∀ f : Obj σ → σ.Reducer → LibCall σ σ.Reducer,
      (∀ r w, f (persistConfig I.storage) r w
        = I.persistReducer (persistConfig I.storage) r w) →
      evalModule (I.withPersistReducer f) w0 = evalModule I w0) := by
  have key : ∀ (J : Imports σ) (v0 : σ.World),
      configPassed (evalModule J v0).trace = some (persistConfig J.storage) := by
    intro J v0
    obtain ⟨ret, rest, ht⟩ := trace_head_call J v0
    rw [ht]; rfl
  refine ⟨key I w0, by simp [persistConfig, List.lookup],
    by simp [persistConfig, List.lookup], ?_,
    evalModule_of_persistReducer_error I w0, ?_, ?_, evalModule_withPersistReducer I w0⟩
  · intro J v0 hJ
    rw [key J v0, key I w0, hJ]
  · intro pr w1 h1
    have hr := evalModule_run I w0
    generalize evalModule I w0 = out at hr ⊢
    cases hr with
    | persistReducerThrows x v1 g1 => rw [g1] at h1; cases h1
    | applyMiddlewareThrows _ _ _ _ g1 _ => rw [g1] at h1; cases h1; exact ⟨_, rfl⟩
    | composeWithDevToolsThrows _ _ _ _ _ _ g1 _ _ => rw [g1] at h1; cases h1; exact ⟨_, rfl⟩
    | createStoreThrows _ _ _ _ _ _ _ _ g1 _ _ _ => rw [g1] at h1; cases h1; exact ⟨_, rfl⟩
    | persistStoreThrows _ _ _ _ _ _ _ _ _ _ g1 _ _ _ _ =>
      rw [g1] at h1; cases h1; exact ⟨_, rfl⟩
    | completes _ _ _ _ _ _ hc =>
      obtain ⟨v1, _, _, _, g1, _⟩ := hc
      rw [g1] at h1; cases h1; exact ⟨_, rfl⟩
  · intro m hm
    obtain ⟨pr, e1, e2, s, p, w5, hc, hm', -⟩ := evalModule_ok_shape I w0 m hm
    obtain ⟨w1, _, _, _, h1, _⟩ := hc
    subst hm'
    exact ⟨pr, w1, h1, by simp [fullScope, List.lookup], by simp [fullScope, List.lookup]⟩

/-- Witness for C4 on libraries whose `persistReducer` rejects every
configuration but the expected one: the run completes. -/
theorem persistReducer_config_is_fixed_witness :
    (strictImports.persistReducer [("key", .str "root")] 1 0).1
      = .error "persistReducer: bad config" ∧
    (evalModule strictImports 0).result = .ok (fullScope strictImports 101 1132 6132) ∧
    configPassed (evalModule strictImports 0).trace
      = some (persistConfig strictImports.storage) ∧
    (persistConfig strictImports.storage).lookup "key" = some (.str "reducer") ∧
    (persistConfig strictImports.storage).lookup "storage"
      = some (.storage strictImports.storage) :=
  have T := persistReducer_config_is_fixed strictImports 0
  ⟨rfl, rfl, T.1, T.2.1, T.2.2.1⟩

/-- C6: whenever evaluation completes, `createStore` was called exactly once,
`persistReducer` exactly once before it and `persistStore` exactly once after
it: the run is the chain of the five library calls, each made once in the world
the previous call left, and the world after the run is the one the single
`persistStore` call left.  The exported `store` is the value the one
`createStore` call returned and is the argument of the one `persistStore`
call, whose return value is the exported `persistor`. -/
theorem exactly_one_store_instance {σ : Sig} (I : Imports σ) (w0 : σ.World)
    (m : Scope σ) (h : (evalModule I w0).result = .ok m) :
    ∃ pr e s p,
      (evalModule I w0).trace.filter (Event.isKind .createStore)
        = [⟨.createStore pr e, .ok (.store s)⟩] ∧
      (evalModule I w0).trace.filter (Event.isKind .persistReducer)
        = [⟨.persistReducer (persistConfig I.storage) I.reducer, .ok (.reducer pr)⟩] ∧
      (evalModule I w0).trace.filter (Event.isKind .persistStore)
        = [⟨.persistStore s, .ok (.persistor p)⟩] ∧
      (evalModule I w0).trace.map (fun ev => ev.call.kind)
        = [.persistReducer, .applyMiddleware, .composeWithDevTools, .createStore,
           .persistStore] ∧
      (moduleExports m).lookup "store" = some (.store s) ∧
      (moduleExports m).lookup "persistor" = some (.persistor p) ∧
      (∃ e1 w1 w2 w3 w4 w5,
        I.persistReducer (persistConfig I.storage) I.reducer w0 = (.ok pr, w1) ∧
        I.applyMiddleware [I.thunk] w1 = (.ok e1, w2) ∧
        I.composeWithDevTools [e1] w2 = (.ok e, w3) ∧
        I.createStore pr e w3 = (.ok s, w4) ∧
        I.persistStore s w4 = (.ok p, w5) ∧
        evalModule I w0 =
          ⟨.ok [("persistConfig", .object (persistConfig I.storage)),
                ("presistedReducer", .reducer pr),
                ("store", .store s),
                ("persistor", .persistor p)],
           w5,
           [⟨.persistReducer (persistConfig I.storage) I.reducer, .ok (.reducer pr)⟩,
            ⟨.applyMiddleware [I.thunk], .ok (.enhancer e1)⟩,
            ⟨.composeWithDevTools [e1], .ok (.enhancer e)⟩,
            ⟨.createStore pr e, .ok (.store s)⟩,
            ⟨.persistStore s, .ok (.persistor p)⟩]⟩) := by
  obtain ⟨pr, e1, e2, s, p, w5, hc, hm, he⟩ := evalModule_ok_shape I w0 m h
  obtain ⟨w1, w2, w3, w4, h1, h2, h3, h4, h5⟩ := hc
  subst hm
  rw [he, moduleExports_fullScope]
  refine ⟨pr, e2, s, p, ?_, ?_, ?_, ?_, ?_, ?_,
    ⟨e1, w1, w2, w3, w4, w5, h1, h2, h3, h4, h5, rfl⟩⟩
  · simp [fullTrace, List.filter, Event.isKind, Call.kind]
  · simp [fullTrace, List.filter, Event.isKind, Call.kind]
  · simp [fullTrace, List.filter, Event.isKind, Call.kind]
  · simp [fullTrace, Call.kind]
  · simp [List.lookup]
  · simp [List.lookup]

/-- Witness for C6 on libraries whose return values depend on the world: one
store, created in world 3, and five calls in all. -/
theorem exactly_one_store_instance_witness :
    (evalModule countingImports 0).result
      = .ok (fullScope countingImports 101 3152 403152) ∧
    (evalModule countingImports 0).world = 5 ∧
    ∃ pr e s p,
      (evalModule countingImports 0).trace.filter (Event.isKind .createStore)
        = [⟨.createStore pr e, .ok (.store s)⟩] ∧
      (evalModule countingImports 0).trace.filter (Event.isKind .persistReducer)
        = [⟨.persistReducer (persistConfig countingImports.storage) countingImports.reducer,
            .ok (.reducer pr)⟩] ∧
      (evalModule countingImports 0).trace.filter (Event.isKind .persistStore)
        = [⟨.persistStore s, .ok (.persistor p)⟩] ∧
      (evalModule countingImports 0).trace.map (fun ev => ev.call.kind)
        = [.persistReducer, .applyMiddleware, .composeWithDevTools, .createStore,
           .persistStore] ∧
      (moduleExports (fullScope countingImports 101 3152 403152)).lookup "store"
        = some (.store s) ∧
      (moduleExports (fullScope countingImports 101 3152 403152)).lookup "persistor"
        = some (.persistor p) ∧
      (∃ e1 w1 w2 w3 w4 w5,
        countingImports.persistReducer (persistConfig countingImports.storage)
          countingImports.reducer 0 = (.ok pr, w1) ∧
        countingImports.applyMiddleware [countingImports.thunk] w1 = (.ok e1, w2) ∧
        countingImports.composeWithDevTools [e1] w2 = (.ok e, w3) ∧
        countingImports.createStore pr e w3 = (.ok s, w4) ∧
        countingImports.persistStore s w4 = (.ok p, w5) ∧
        evalModule countingImports 0 =
          ⟨.ok [("persistConfig", .object (persistConfig countingImports.storage)),
                ("presistedReducer", .reducer pr),
                ("store", .store s),
                ("persistor", .persistor p)],
           w5,
           [⟨.persistReducer (persistConfig countingImports.storage)
               countingImports.reducer, .ok (.reducer pr)⟩,
            ⟨.applyMiddleware [countingImports.thunk], .ok (.enhancer e1)⟩,
            ⟨.composeWithDevTools [e1], .ok (.enhancer e)⟩,
            ⟨.createStore pr e, .ok (.store s)⟩,
            ⟨.persistStore s, .ok (.persistor p)⟩]⟩) :=
  ⟨rfl, rfl, exactly_one_store_instance countingImports 0
    (fullScope countingImports 101 3152 403152) rfl⟩

/-- C5: the module handles no error itself.  When `persistReducer` throws, the
run ends with that error in the world that call left and nothing else is
called; likewise when `createStore` throws after the earlier calls returned,
and when `persistStore` throws after the earlier calls returned.  Taking these
three as the calls that may throw (the two calls that build the enhancer
return), evaluation fails with an error exactly when the first of the three
that throws, in the order `persistReducer`, `createStore`, `persistStore`,
throws that error.  In every run the error of the module is the error of the
first call that threw, no call is made after a call that threw, and the calls
made are an initial segment of the program order. -/
theorem failure_is_first_library_error {σ : Sig} (I : Imports σ) (w0 : σ.World) :
    (∀ x w1,
      I.persistReducer (persistConfig I.storage) I.reducer w0 = (.error x, w1) →
      evalModule I w0 = ⟨.error x, w1,
        [⟨.persistReducer (persistConfig I.storage) I.reducer, .error x⟩]⟩) ∧
    (∀ pr w1 e1 w2 e2 w3 x w4,
      I.persistReducer (persistConfig I.storage) I.reducer w0 = (.ok pr, w1) →
      I.applyMiddleware [I.thunk] w1 = (.ok e1, w2) →
      I.composeWithDevTools [e1] w2 = (.ok e2, w3) →
      I.createStore pr e2 w3 = (.error x, w4) →
      evalModule I w0 = ⟨.error x, w4,
        [⟨.persistReducer (persistConfig I.storage) I.reducer, .ok (.reducer pr)⟩,
         ⟨.applyMiddleware [I.thunk], .ok (.enhancer e1)⟩,
         ⟨.composeWithDevTools [e1], .ok (.enhancer e2)⟩,
         ⟨.createStore pr e2, .error x⟩]⟩) ∧
    (∀ pr w1 e1 w2 e2 w3 s w4 x w5,
      I.persistReducer (persistConfig I.storage) I.reducer w0 = (.ok pr, w1) →
      I.applyMiddleware [I.thunk] w1 = (.ok e1, w2) →
      I.composeWithDevTools [e1] w2 = (.ok e2, w3) →
      I.createStore pr e2 w3 = (.ok s, w4) →
      I.persistStore s w4 = (.error x, w5) →
      evalModule I w0 = ⟨.error x, w5,
        [⟨.persistReducer (persistConfig I.storage) I.reducer, .ok (.reducer pr)⟩,
         ⟨.applyMiddleware [I.thunk], .ok (.enhancer e1)⟩,
         ⟨.composeWithDevTools [e1], .ok (.enhancer e2)⟩,
         ⟨.createStore pr e2, .ok (.store s)⟩,
         ⟨.persistStore s, .error x⟩]⟩) ∧
    ((∀ w, ∃ e w', I.applyMiddleware [I.thunk] w = (.ok e, w')) →
     (∀ e1 w, ∃ e w', I.composeWithDevTools [e1] w = (.ok e, w')) →
      (∀ x, (evalModule I w0).result = .error x ↔
        ((∃ w1, I.persistReducer (persistConfig I.storage) I.reducer w0 = (.error x, w1)) ∨
         (∃ pr w1 e1 w2 e2 w3 w4,
            I.persistReducer (persistConfig I.storage) I.reducer w0 = (.ok pr, w1) ∧
            I.applyMiddleware [I.thunk] w1 = (.ok e1, w2) ∧
            I.composeWithDevTools [e1] w2 = (.ok e2, w3) ∧
            I.createStore pr e2 w3 = (.error x, w4)) ∨
         (∃ pr w1 e1 w2 e2 w3 s w4 w5,
            I.persistReducer (persistConfig I.storage) I.reducer w0 = (.ok pr, w1) ∧
            I.applyMiddleware [I.thunk] w1 = (.ok e1, w2) ∧
            I.composeWithDevTools [e1] w2 = (.ok e2, w3) ∧
            I.createStore pr e2 w3 = (.ok s, w4) ∧
            I.persistStore s w4 = (.error x, w5)))) ∧
      ((∃ x, (evalModule I w0).result = .error x) ↔
        ∃ ev ∈ (evalModule I w0).trace, ev.failed = true ∧
          ev.call.kind ∈ [Kind.persistReducer, Kind.createStore, Kind.persistStore])) ∧
    (∀ x, (evalModule I w0).result = .error x ↔
      ((evalModule I w0).trace.find? Event.failed).bind Event.thrown = some x) ∧
    (∀ pre ev post, (evalModule I w0).trace = pre ++ ev :: post → ev.failed = true →
      post = []) ∧
    (evalModule I w0).trace.map (fun ev => ev.call.kind) <+:
      [.persistReducer, .applyMiddleware, .composeWithDevTools, .createStore,
       .persistStore] := by
  refine ⟨evalModule_of_persistReducer_error I w0, evalModule_of_createStore_error I w0,
    evalModule_of_persistStore_error I w0, ?_, ?_⟩
  · intro hAM hCD
    refine ⟨fun x => ⟨?_, ?_⟩, ?_⟩
    · intro hx
      have h := evalModule_run I w0
      generalize evalModule I w0 = out at h hx
      cases h with
      | persistReducerThrows y w1 h1 =>
        cases hx
        exact Or.inl ⟨w1, h1⟩
      | applyMiddlewareThrows pr w1 y w2 h1 h2 =>
        obtain ⟨e, w', he⟩ := hAM w1
        rw [he] at h2
        cases h2
      | composeWithDevToolsThrows pr w1 e1 w2 y w3 h1 h2 h3 =>
        obtain ⟨e, w', he⟩ := hCD e1 w2
        rw [he] at h3
        cases h3
      | createStoreThrows pr w1 e1 w2 e2 w3 y w4 h1 h2 h3 h4 =>
        cases hx
        exact Or.inr (Or.inl ⟨pr, w1, e1, w2, e2, w3, w4, h1, h2, h3, h4⟩)
      | persistStoreThrows pr w1 e1 w2 e2 w3 s w4 y w5 h1 h2 h3 h4 h5 =>
        cases hx
        exact Or.inr (Or.inr ⟨pr, w1, e1, w2, e2, w3, s, w4, w5, h1, h2, h3, h4, h5⟩)
      | completes pr e1 e2 s p w5 hc =>
        cases hx
    · rintro (⟨w1, h1⟩ | ⟨pr, w1, e1, w2, e2, w3, w4, h1, h2, h3, h4⟩ |
        ⟨pr, w1, e1, w2, e2, w3, s, w4, w5, h1, h2, h3, h4, h5⟩)
      · rw [evalModule_of_persistReducer_error I w0 x w1 h1]
      · rw [evalModule_of_createStore_error I w0 pr w1 e1 w2 e2 w3 x w4 h1 h2 h3 h4]
      · rw [evalModule_of_persistStore_error I w0 pr w1 e1 w2 e2 w3 s w4 x w5 h1 h2 h3 h4 h5]
    · have h := evalModule_run I w0
      generalize evalModule I w0 = out at h ⊢
      cases h with
      | persistReducerThrows x w1 h1 => simp [Event.failed, Event.thrown, Call.kind]
      | applyMiddlewareThrows pr w1 x w2 h1 h2 =>
        obtain ⟨e, w', he⟩ := hAM w1
        rw [he] at h2
        cases h2
      | composeWithDevToolsThrows pr w1 e1 w2 x w3 h1 h2 h3 =>
        obtain ⟨e, w', he⟩ := hCD e1 w2
        rw [he] at h3
        cases h3
      | createStoreThrows pr w1 e1 w2 e2 w3 x w4 h1 h2 h3 h4 =>
        simp [Event.failed, Event.thrown, Call.kind]
      | persistStoreThrows pr w1 e1 w2 e2 w3 s w4 x w5 h1 h2 h3 h4 h5 =>
        simp [Event.failed, Event.thrown, Call.kind]
      | completes pr e1 e2 s p w5 hc =>
        simp [fullTrace, Event.failed, Event.thrown]
  · have h := evalModule_run I w0
    generalize evalModule I w0 = out at h ⊢
    cases h with
    | persistReducerThrows x w1 h1 =>
      refine ⟨?_, ?_, ⟨_, rfl⟩⟩
      · intro y; simp [List.find?, Event.failed, Event.thrown]
      · exact nothing_after_failed_of_dropLast _ (by simp [Event.failed, Event.thrown])
    | applyMiddlewareThrows pr w1 x w2 h1 h2 =>
      refine ⟨?_, ?_, ⟨_, rfl⟩⟩
      · intro y; simp [List.find?, Event.failed, Event.thrown]
      · exact nothing_after_failed_of_dropLast _ (by simp [Event.failed, Event.thrown])
    | composeWithDevToolsThrows pr w1 e1 w2 x w3 h1 h2 h3 =>
      refine ⟨?_, ?_, ⟨_, rfl⟩⟩
      · intro y; simp [List.find?, Event.failed, Event.thrown]
      · exact nothing_after_failed_of_dropLast _ (by simp [Event.failed, Event.thrown])
    | createStoreThrows pr w1 e1 w2 e2 w3 x w4 h1 h2 h3 h4 =>
      refine ⟨?_, ?_, ⟨_, rfl⟩⟩
      · intro y; simp [List.find?, Event.failed, Event.thrown]
      · exact nothing_after_failed_of_dropLast _ (by simp [Event.failed, Event.thrown])
    | persistStoreThrows pr w1 e1 w2 e2 w3 s w4 x w5 h1 h2 h3 h4 h5 =>
      refine ⟨?_, ?_, ⟨_, rfl⟩⟩
      · intro y; simp [List.find?, Event.failed, Event.thrown]
      · exact nothing_after_failed_of_dropLast _ (by simp [Event.failed, Event.thrown])
    | completes pr e1 e2 s p w5 hc =>
      refine ⟨?_, ?_, ⟨[], rfl⟩⟩
      · intro y; simp [fullTrace, List.find?, Event.failed, Event.thrown]
      · exact nothing_after_failed_of_dropLast _
          (by simp [fullTrace, Event.failed, Event.thrown])

/-- Witness for C5 on libraries whose `createStore` throws: the run ends with
that error in world 4, after four calls, and `persistStore` is not called. -/
theorem failure_is_first_library_error_witness :
    (∀ w, ∃ e w', failingImports.applyMiddleware [failingImports.thunk] w = (.ok e, w')) ∧
    (∀ e1 w, ∃ e w', failingImports.composeWithDevTools [e1] w = (.ok e, w')) ∧
    evalModule failingImports 0 = ⟨.error "createStore: bad reducer", 4,
      [⟨.persistReducer (persistConfig failingImports.storage) failingImports.reducer,
          .ok (.reducer 101)⟩,
       ⟨.applyMiddleware [failingImports.thunk], .ok (.enhancer 11)⟩,
       ⟨.composeWithDevTools [11], .ok (.enhancer 31)⟩,
       ⟨.createStore 101 31, .error "createStore: bad reducer"⟩]⟩ ∧
    ((∃ x, (evalModule failingImports 0).result = .error x) ↔
      ∃ ev ∈ (evalModule failingImports 0).trace, ev.failed = true ∧
        ev.call.kind ∈ [Kind.persistReducer, Kind.createStore, Kind.persistStore]) ∧
    (∀ x, (evalModule failingImports 0).result = .error x ↔
      ((evalModule failingImports 0).trace.find? Event.failed).bind Event.thrown = some x) ∧
    (∀ pre ev post, (evalModule failingImports 0).trace = pre ++ ev :: post →
      ev.failed = true → post = []) ∧
    (evalModule failingImports 0).trace.map (fun ev => ev.call.kind) <+:
      [.persistReducer, .applyMiddleware, .composeWithDevTools, .createStore,
       .persistStore] :=
  have T := failure_is_first_library_error failingImports 0
  ⟨fun _ => ⟨_, _, rfl⟩, fun _ _ => ⟨_, _, rfl⟩,
    T.2.1 101 1 11 2 31 3 "createStore: bad reducer" 4 rfl rfl rfl rfl,
    (T.2.2.2.1 (fun _ => ⟨_, _, rfl⟩) (fun _ _ => ⟨_, _, rfl⟩)).2,
    T.2.2.2.2⟩

/-- C3: the persistence policy of `store.js` is an inclusion list.  The
configuration has the properties `key`, `storage` and `whitelist` and no
`blacklist`; its `whitelist` is `['reducer']`; and for every state tree and
every top-level key `k` of it with sub-tree `v`, the entry belongs to the
persisted slice exactly when `k` is named in the whitelist, that is, exactly
when `k` is `reducer`. -/
theorem persisted_slice_is_whitelist {σ : Sig} {V : Type} (st : σ.Storage)
    (s : List (String × V)) (k : String) (v : V) (hk : (k, v) ∈ s) :
    (persistConfig st).map Prod.fst = ["key", "storage", "whitelist"] ∧
    (persistConfig st).lookup "blacklist" = none ∧
    blacklistOf (persistConfig st) = none ∧
    whitelistOf (persistConfig st) = some ["reducer"] ∧
    ((k, v) ∈ persistedSlice (persistConfig st) s ↔
      ∃ wl, whitelistOf (persistConfig st) = some wl ∧ k ∈ wl) ∧
    ((k, v) ∈ persistedSlice (persistConfig st) s ↔ k = "reducer") := by
  have hw : whitelistOf (persistConfig st) = some ["reducer"] := by
    simp [whitelistOf, persistConfig, List.lookup]
  have hs : (k, v) ∈ persistedSlice (persistConfig st) s ↔ k = "reducer" := by
    simp [persistedSlice, passesFilter_persistConfig, hk]
  refine ⟨by simp [persistConfig], by simp [persistConfig, List.lookup],
    by simp [blacklistOf, persistConfig, List.lookup], hw, ?_, hs⟩
  rw [hs, hw]
  simp

/-- Witness for C3: a state tree with the keys `reducer` and `images`. -/
theorem persisted_slice_is_whitelist_witness :
    (("images", 2) : String × Nat) ∈ [("reducer", 1), ("images", 2)] ∧
    ¬ ((("images", 2) : String × Nat) ∈
      persistedSlice (persistConfig demoImports.storage)
        [("reducer", 1), ("images", 2)]) :=
  have hk : (("images", 2) : String × Nat) ∈ [("reducer", 1), ("images", 2)] := by decide
  ⟨hk, fun hin =>
    absurd ((persisted_slice_is_whitelist demoImports.storage
      [("reducer", 1), ("images", 2)] "images" 2 hk).2.2.2.2.2.mp hin) (by decide)⟩

/-- C7: when a state tree has no top-level key `reducer`, its persisted slice
under the configuration of `store.js` is empty, whatever other keys it has. -/
theorem persisted_slice_empty_without_reducer_key {σ : Sig} {V : Type} (st : σ.Storage)
    (s : List (String × V)) (h : ∀ v, ("reducer", v) ∉ s) :
    persistedSlice (persistConfig st) s = [] := by
  simp only [persistedSlice, passesFilter_persistConfig, List.filter_eq_nil_iff]
  rintro ⟨k, v⟩ hkv hd
  have hk : k = "reducer" := by simpa using hd
  subst hk
  exact h v hkv

/-- Witness for C7: a state tree with the keys `images` and `account`. -/
theorem persisted_slice_empty_without_reducer_key_witness :
    (∀ v : Nat, ("reducer", v) ∉ [("images", 1), ("account", 2)]) ∧
    persistedSlice (persistConfig demoImports.storage)
      [("images", 1), ("account", 2)] = ([] : List (String × Nat)) :=
  have h : ∀ v : Nat, ("reducer", v) ∉ [("images", 1), ("account", 2)] := by
    intro v; simp
  ⟨h, persisted_slice_empty_without_reducer_key demoImports.storage _ h⟩

end StoreModule
